import Mathlib

/-!
Verification development for the `mindpack` repository (`lib/Null.py`).

The file shallowly embeds the data model and operations of `Null.py`:

* the `Signal` class hierarchy (`Signal`, `SigMirror`, `GeneralControlSignal`,
  `SigTerminate`, `SigTerminated`, `SigTerminateNow`), its per-class `_fields`
  schema, `inspect_fields` merging, `set_fields` validation and `__init__`;
* the `Null` substance: its `__init__` keyword handling, `get` / `__getitem__` /
  `set` state management (including the mirroring branch), `push_signal`,
  `emit` and the `exec` dispatch hook.

Python dictionaries over string keys are modelled as ordered association
lists; Python scalar values as the inductive `PyVal`; a raised-and-propagated
Python exception as a `PyErr` component of the result.
-/

set_option autoImplicit false

/-- The Python value types occurring in `Null.py`'s schemas and state values:
`NoneType`, `bool`, `int` and `str`. -/
inductive PyType where
  | noneType
  | bool
  | int
  | str
deriving DecidableEq

/-- Python scalar values as used by `Null.py` (field values, state values,
keyword-argument values): `None`, booleans, integers and strings. -/
inductive PyVal where
  | none
  | bool (b : Bool)
  | int (n : Int)
  | str (s : String)
deriving DecidableEq

/-- Python's `type(v)` restricted to the modelled value universe. -/
def typeOf : PyVal → PyType
  | PyVal.none => PyType.noneType
  | PyVal.bool _ => PyType.bool
  | PyVal.int _ => PyType.int
  | PyVal.str _ => PyType.str

/-- Python's `issubclass` on the modelled builtin types (`bool` is a subclass
of `int`; every type is a subclass of itself). -/
def pyIssubclass (a b : PyType) : Bool :=
  a = b || (a = PyType.bool && b = PyType.int)

/-- Python truthiness of a modelled value (`if self['is_mirroring']:` etc.). -/
def pyTruthy : PyVal → Bool
  | PyVal.none => false
  | PyVal.bool b => b
  | PyVal.int n => decide (n ≠ 0)
  | PyVal.str s => decide (s ≠ "")

/-- Python's `str(v)` on the modelled values. -/
def pyStr : PyVal → String
  | PyVal.none => "None"
  | PyVal.bool b => if b then "True" else "False"
  | PyVal.int n => toString n
  | PyVal.str s => s

/-- A Python `dict` with string keys, as an insertion-ordered association
list (the order matters because `set_fields` iterates `fields.keys()`). -/
abbrev Dict (α : Type) : Type := List (String × α)

/-- Dictionary lookup, `d[k]` / `k in d`. -/
def dictGet {α : Type} : Dict α → String → Option α
  | [], _ => Option.none
  | (k', v) :: rest, k => if k = k' then some v else dictGet rest k

/-- Dictionary write `d[k] = v`: replaces the value in place if the key is
present, otherwise appends the new pair, as a Python dict does. -/
def dictSet {α : Type} : Dict α → String → α → Dict α
  | [], k, v => [(k, v)]
  | (k', v') :: rest, k, v =>
      if k' = k then (k, v) :: rest else (k', v') :: dictSet rest k v

/-- Python's `d.update(e)`: write every entry of `e` into `d`, in order. -/
def dictUpdate {α : Type} : Dict α → Dict α → Dict α
  | d, [] => d
  | d, (k, v) :: rest => dictUpdate (dictSet d k v) rest

/-- The signal classes declared in `Null.py`. -/
inductive SignalKind where
  | Signal
  | SigMirror
  | GeneralControlSignal
  | SigTerminate
  | SigTerminated
  | SigTerminateNow
deriving DecidableEq

/-- One `_fields` entry: the tuple `(type, default_value, description)`. -/
structure FieldSpec where
  ftype : PyType
  fdefault : PyVal
  fdescr : String
deriving DecidableEq

/-- The `_fields` dictionary declared in a class's own body, when it declares
one.  In `Null.py` only `Signal` itself declares `_fields` (with `src` and
`dst`); no subclass overrides it. -/
def declaredFields : SignalKind → Option (Dict FieldSpec)
  | SignalKind.Signal =>
      some [("src", ⟨PyType.str, PyVal.none, "source/sender Null substance"⟩),
            ("dst", ⟨PyType.str, PyVal.none, "destination/receiver Null substance"⟩)]
  | _ => Option.none

/-- The method-resolution chain of each class, most derived first, transcribed
from the class declarations: `SigMirror(Signal)`, `GeneralControlSignal(Signal)`,
`SigTerminate/SigTerminated/SigTerminateNow(GeneralControlSignal)`. -/
def ancestors : SignalKind → List SignalKind
  | SignalKind.Signal => [SignalKind.Signal]
  | SignalKind.SigMirror => [SignalKind.SigMirror, SignalKind.Signal]
  | SignalKind.GeneralControlSignal =>
      [SignalKind.GeneralControlSignal, SignalKind.Signal]
  | SignalKind.SigTerminate =>
      [SignalKind.SigTerminate, SignalKind.GeneralControlSignal, SignalKind.Signal]
  | SignalKind.SigTerminated =>
      [SignalKind.SigTerminated, SignalKind.GeneralControlSignal, SignalKind.Signal]
  | SignalKind.SigTerminateNow =>
      [SignalKind.SigTerminateNow, SignalKind.GeneralControlSignal, SignalKind.Signal]

/-- Python attribute lookup of `cls._fields`: the first declaration found on
the method-resolution chain (every class inherits `Signal._fields` unless it
declares its own). -/
def fieldsAttr (c : SignalKind) : Dict FieldSpec :=
  ((ancestors c).findSome? declaredFields).getD []

/-- The recursion of `Signal.inspect_fields` along the base-class chain:
`d = dict(); if cls != Signal: d.update(cls.__base__.inspect_fields());
d.update(cls._fields); return d`.  Walking the `__base__` chain is the same as
folding over the ancestor list from the root down, updating with each level's
`_fields` attribute. -/
def inspectFieldsGo : List SignalKind → Dict FieldSpec
  | [] => []
  | c :: rest => dictUpdate (inspectFieldsGo rest) (fieldsAttr c)

/-- `Signal.inspect_fields` for a class: all fields of the class and its
parents, the most derived declaration winning. -/
def inspectFields (c : SignalKind) : Dict FieldSpec :=
  inspectFieldsGo (ancestors c)

/-- A constructed `Signal` object: its class, the `self.contained` dictionary
filled by `set_fields`, and any further instance attributes assigned by
subclass initializers (`SigMirror.key`, `SigTerminated.countdown_request`, …). -/
structure SignalObj where
  cls : SignalKind
  contained : Dict PyVal
  attrs : Dict PyVal
deriving DecidableEq

/-- Python's `isinstance(obj, C)` over the modelled hierarchy. -/
def isInstance (s : SignalObj) (c : SignalKind) : Bool :=
  decide (c ∈ ancestors s.cls)

/-- The loop of `Signal.set_fields`: iterate over the merged schema's keys; a
field absent from `kwargs` gets its declared default written into
`self.contained`; a field present with a value of the wrong type makes the
method `return False` immediately (the already-written defaults stay). -/
def setFieldsGo (contained : Dict PyVal) (kwargs : Dict PyVal) :
    Dict FieldSpec → Dict PyVal × Bool
  | [] => (contained, true)
  | (name, spec) :: rest =>
      match dictGet kwargs name with
      | Option.none =>
          setFieldsGo (dictSet contained name spec.fdefault) kwargs rest
      | some v =>
          if typeOf v ≠ spec.ftype ∨ ¬ pyIssubclass (typeOf v) spec.ftype then
            (contained, false)
          else
            setFieldsGo contained kwargs rest

/-- `Signal.set_fields(**kwargs)` run on a given `self.contained`, returning
the updated `contained` and the boolean result. -/
def setFields (c : SignalKind) (contained : Dict PyVal) (kwargs : Dict PyVal) :
    Dict PyVal × Bool :=
  setFieldsGo contained kwargs (inspectFields c)

/-- The outcome of `Signal.__init__`: the object is always produced, because
the `raise Signal.FieldsMismatchError` sits inside a `try` whose `except`
clause catches that very error and only prints `"Fields mismatch!"`.
`printedMismatch` records whether that message was printed. -/
structure SignalInitResult where
  sig : SignalObj
  printedMismatch : Bool
deriving DecidableEq

/-- `Signal.__init__(self, **kwargs)` body: `self.contained = dict()`, then
`set_fields(**kwargs)`; on `False` the raised `FieldsMismatchError` is caught
in the same method and `"Fields mismatch!"` is printed — the constructed
object is returned either way. -/
def signalInit (c : SignalKind) (kwargs : Dict PyVal) : SignalInitResult :=
  let r := setFields c [] kwargs
  { sig := { cls := c, contained := r.1, attrs := [] }, printedMismatch := !r.2 }

/-- Python exceptions that can propagate out of the modelled operations. -/
inductive PyErr where
  | typeError
  | keyError
  | attributeError
deriving DecidableEq

/-- Calling `Signal.__init__` through Python's calling convention: the method
declares only `self` and `**kwargs`, so any positional argument raises
`TypeError` before the body runs. -/
def signalInitCall (c : SignalKind) (posArgs : List PyVal) (kwargs : Dict PyVal) :
    Except PyErr SignalInitResult :=
  match posArgs with
  | [] => Except.ok (signalInit c kwargs)
  | _ :: _ => Except.error PyErr.typeError

/-- `SigMirror.__init__(self, src=None, dst=None, key=None, val=None)`:
`super().__init__(src, dst)` passes `src` and `dst` positionally to
`Signal.__init__`, then `self.key = key; self.value = val`. -/
def sigMirrorNew (src dst key val : PyVal) : Except PyErr SignalObj :=
  match signalInitCall SignalKind.SigMirror [src, dst] [] with
  | Except.error e => Except.error e
  | Except.ok r =>
      Except.ok { r.sig with
        attrs := dictSet (dictSet r.sig.attrs "key" key) "value" val }

/-- `Signal.get_src` (the getter behind the `src` property):
`self.contained['src']`, a `KeyError` when the key is absent. -/
def signalGetSrc (s : SignalObj) : Except PyErr PyVal :=
  match dictGet s.contained "src" with
  | some v => Except.ok v
  | Option.none => Except.error PyErr.keyError

/-- `Signal.set_src` (the setter behind the `src` property):
`self.contained['src'] = val`. -/
def signalSetSrc (s : SignalObj) (val : PyVal) : SignalObj :=
  { s with contained := dictSet s.contained "src" val }

/-- `Signal.get_dst`: `self.contained['dst']`. -/
def signalGetDst (s : SignalObj) : Except PyErr PyVal :=
  match dictGet s.contained "dst" with
  | some v => Except.ok v
  | Option.none => Except.error PyErr.keyError

/-- `Signal.set_dst`: `self.contained['dst'] = val`. -/
def signalSetDst (s : SignalObj) (val : PyVal) : SignalObj :=
  { s with contained := dictSet s.contained "dst" val }

/-- A `Null` substance object.  `self._domain` is `None` (root), another
`Null` (a domain hierarchy is a finite chain of objects), or some non-`Null`
value passed as the `domain` keyword; `self._input_signals` is the input
queue; `self._state` is the state dictionary. -/
inductive NullObj where
  | noDomain (signals : List SignalObj) (state : Dict PyVal)
  | nullDomain (domain : NullObj) (signals : List SignalObj) (state : Dict PyVal)
  | otherDomain (dv : PyVal) (signals : List SignalObj) (state : Dict PyVal)
deriving DecidableEq

/-- The substance's `self._state`. -/
def stateOf : NullObj → Dict PyVal
  | NullObj.noDomain _ st => st
  | NullObj.nullDomain _ _ st => st
  | NullObj.otherDomain _ _ st => st

/-- The substance's `self._input_signals`. -/
def inputSignals : NullObj → List SignalObj
  | NullObj.noDomain sigs _ => sigs
  | NullObj.nullDomain _ sigs _ => sigs
  | NullObj.otherDomain _ sigs _ => sigs

/-- Replace `self._state` (the effect of a state write). -/
def withState : NullObj → Dict PyVal → NullObj
  | NullObj.noDomain sigs _, st => NullObj.noDomain sigs st
  | NullObj.nullDomain d sigs _, st => NullObj.nullDomain d sigs st
  | NullObj.otherDomain v sigs _, st => NullObj.otherDomain v sigs st

/-- Replace `self._input_signals` (the effect of a queue write). -/
def withSignals : NullObj → List SignalObj → NullObj
  | NullObj.noDomain _ st, sigs => NullObj.noDomain sigs st
  | NullObj.nullDomain d _ st, sigs => NullObj.nullDomain d sigs st
  | NullObj.otherDomain v _ st, sigs => NullObj.otherDomain v sigs st

/-- `Null.__getitem__`: `self._state[item] if item in self._state else None`. -/
def nullGetItem (s : NullObj) (item : String) : PyVal :=
  match dictGet (stateOf s) item with
  | some v => v
  | Option.none => PyVal.none

/-- `Null.get(key, default_value)`: the stored value if the key is in
`self._state`, otherwise the caller's `default_value`. -/
def nullGet (s : NullObj) (key : String) (default_value : PyVal) : PyVal :=
  match dictGet (stateOf s) key with
  | some v => v
  | Option.none => default_value

/-- The keyword arguments read by `Null.__init__`: `domain` (a `Null`
object — `Sum.inl` — or any other value — `Sum.inr`), `is_mirroring`, `id`,
`base_priority`, `additional_priority`, `intercycle_waiting`. -/
structure NullKwargs where
  domain : Option (Sum NullObj PyVal)
  is_mirroring : Option PyVal
  id : Option PyVal
  base_priority : Option PyVal
  additional_priority : Option PyVal
  intercycle_waiting : Option PyVal

/-- `Null.__init__(self, **kwargs)`: empty input queue and state; if a
`domain` keyword is given, `state['domain']` is set to the domain's `id`
state entry when it is a `Null`, else to `str(domain)`;
`state['is_mirroring']` starts `False` and is overwritten only by a truthy
`is_mirroring` keyword; `state['id']` defaults to `''`;
`base_priority`/`additional_priority`/`intercycle_waiting` default to
`0`/`-1`/`None`; finally `state['termination'] = False`. -/
def nullInit (kw : NullKwargs) : NullObj :=
  let st : Dict PyVal := []
  let st : Dict PyVal :=
    match kw.domain with
    | Option.none => st
    | some (Sum.inl d) => dictSet st "domain" (nullGetItem d "id")
    | some (Sum.inr v) => dictSet st "domain" (PyVal.str (pyStr v))
  let st := dictSet st "is_mirroring" (PyVal.bool false)
  let st :=
    match kw.is_mirroring with
    | Option.none => st
    | some v => if pyTruthy v then dictSet st "is_mirroring" v else st
  let st := dictSet st "id" (PyVal.str "")
  let st :=
    match kw.id with
    | Option.none => st
    | some v => dictSet st "id" v
  let st := dictSet st "base_priority"
    (match kw.base_priority with | some v => v | Option.none => PyVal.int 0)
  let st := dictSet st "additional_priority"
    (match kw.additional_priority with | some v => v | Option.none => PyVal.int (-1))
  let st := dictSet st "intercycle_waiting"
    (match kw.intercycle_waiting with | some v => v | Option.none => PyVal.none)
  let st := dictSet st "termination" (PyVal.bool false)
  match kw.domain with
  | Option.none => NullObj.noDomain [] st
  | some (Sum.inl d) => NullObj.nullDomain d [] st
  | some (Sum.inr v) => NullObj.otherDomain v [] st

/-- `Null.push_signal(signal)`: a `SigTerminateNow` instance is inserted at
index 0 of `self._input_signals`; every other signal is appended. -/
def nullPushSignal (s : NullObj) (sig : SignalObj) : NullObj :=
  if isInstance sig SignalKind.SigTerminateNow then
    withSignals s (sig :: inputSignals s)
  else
    withSignals s (inputSignals s ++ [sig])

/-- `Null.emit(signal)`: if `self._domain` is a `Null` instance, forward the
same signal to `self._domain.emit`; otherwise (`None` or any non-`Null`
domain value) push it into the substance's own queue via `push_signal`. -/
def nullEmit : NullObj → SignalObj → NullObj
  | NullObj.nullDomain d sigs st, sig =>
      NullObj.nullDomain (nullEmit d sig) sigs st
  | NullObj.noDomain sigs st, sig =>
      nullPushSignal (NullObj.noDomain sigs st) sig
  | NullObj.otherDomain v sigs st, sig =>
      nullPushSignal (NullObj.otherDomain v sigs st) sig

/-- `Null.set(self, key, value)`.  The state entry is always written first.
Then, if `self['is_mirroring']` is truthy, the method inspects the calling
frame: `callerSelf` abstracts what the frame inspection observes —
`Option.none` models a caller with no local `self` (the
`inv[1].frame.f_locals['self']` lookup raises `KeyError`), `some b` models a
caller whose `self` compares to this substance with result `b`.  When the
caller is the substance itself, `self._domain.emit(SigMirror(...))` runs: on
a non-`Null` domain the `emit` attribute lookup raises `AttributeError`;
otherwise the `SigMirror` construction is evaluated and its outcome
propagates.  The result pairs the substance after the write with the raised
exception, if any. -/
def nullSet (s : NullObj) (callerSelf : Option Bool) (key : String)
    (value : PyVal) : NullObj × Option PyErr :=
  let s1 := withState s (dictSet (stateOf s) key value)
  if pyTruthy (nullGetItem s1 "is_mirroring") then
    match callerSelf with
    | Option.none => (s1, some PyErr.keyError)
    | some invEqCur =>
        if invEqCur then
          match s1 with
          | NullObj.nullDomain d sigs st =>
              match sigMirrorNew (nullGetItem s1 "id") (nullGetItem s1 "id")
                  (PyVal.str key) value with
              | Except.error e => (s1, some e)
              | Except.ok mirror =>
                  (NullObj.nullDomain (nullEmit d mirror) sigs st, Option.none)
          | _ => (s1, some PyErr.attributeError)
        else (s1, Option.none)
  else (s1, Option.none)

/-- `Null.exec(signal)`: the dispatch entry point only delegates to the
abstract, subclass-specific `_exec` — it installs no guard of any kind, so
whatever the handler does (including reentrantly calling `exec`) happens as
an ordinary nested call.  `execImpl` is the subclass's `_exec` body; it
returns the substance after the handler ran and the exception the handler
raised, if any. -/
def nullExec (execImpl : NullObj → SignalObj → NullObj × Option PyErr)
    (s : NullObj) (sig : SignalObj) : NullObj × Option PyErr :=
  execImpl s sig

/-- The input queue of the root of a substance's domain chain (the place an
emitted signal finally lands, since `emit` bubbles through `Null` domains). -/
def rootQueue : NullObj → List SignalObj
  | NullObj.nullDomain d _ _ => rootQueue d
  | NullObj.noDomain sigs _ => sigs
  | NullObj.otherDomain _ sigs _ => sigs

/-- The input queue of a substance's immediate `Null` domain, `[]` when the
substance has none (used to observe what a substance's domain received). -/
def domainSignals : NullObj → List SignalObj
  | NullObj.nullDomain d _ _ => inputSignals d
  | _ => []

/-- Follows the spec's words, for comparison with `inspectFields`: the merged
schema of a kind maps a field name to the declaration found in the most
specific (most derived) ancestor kind whose own `_fields` declaration
contains the name — the union of the kind's own and all ancestors' declared
fields, most derived winning. -/
def specMergedSchema (c : SignalKind) (name : String) : Option FieldSpec :=
  (ancestors c).findSome? (fun a => (declaredFields a).bind (fun fs => dictGet fs name))

/-- Modelled from the spec: the four values of the termination protocol,
`running | requested | confirmed | terminated`. -/
def terminationProtocolValues : List PyVal :=
  [PyVal.str "running", PyVal.str "requested", PyVal.str "confirmed",
   PyVal.str "terminated"]

/-- Keyword arguments with every key absent. -/
def emptyNullKwargs : NullKwargs :=
  ⟨Option.none, Option.none, Option.none, Option.none, Option.none, Option.none⟩

/-- A freshly constructed substance, `Null()`. -/
def sampleNull : NullObj := nullInit emptyNullKwargs

/-- A substance with a `Null` domain attached, `is_mirroring=True` and
`id='a'` — the configuration in which a handler-initiated `set` takes the
mirroring branch. -/
def sampleMirroring : NullObj :=
  nullInit ⟨some (Sum.inl sampleNull), some (PyVal.bool true),
    some (PyVal.str "a"), Option.none, Option.none, Option.none⟩

/-- A plain (non-preemptive) signal object. -/
def sampleSignalA : SignalObj := (signalInit SignalKind.Signal []).sig

/-- A second plain signal object, distinguishable from the first. -/
def sampleSignalB : SignalObj :=
  { (signalInit SignalKind.Signal []).sig with attrs := [("tag", PyVal.int 2)] }

/-- A `SigTerminateNow` (preemptive) signal object. -/
def samplePreemptive : SignalObj :=
  { cls := SignalKind.SigTerminateNow, contained := [], attrs := [] }

/-- Writing one state key directly, as a handler body might
(`self._state[key] = value` without the mirroring machinery). -/
def markState (s : NullObj) (key : String) : NullObj :=
  withState s (dictSet (stateOf s) key (PyVal.bool true))

/-- A concrete `_exec` body that records that it ran. -/
def innerHandler : NullObj → SignalObj → NullObj × Option PyErr :=
  fun s _ => (markState s "inner", Option.none)

/-- A concrete `_exec` body that, while processing a signal, reentrantly
invokes the dispatch entry point `exec` on the same substance. -/
def reentrantHandler : NullObj → SignalObj → NullObj × Option PyErr :=
  fun s sig => nullExec innerHandler (markState s "outer") sig

/-- Looking a key up right after writing it yields the written value. -/
theorem dictGet_dictSet_self {α : Type} (d : Dict α) (k : String) (v : α) :
    dictGet (dictSet d k v) k = some v := by
  induction d with
  | nil => simp [dictSet, dictGet]
  | cons hd tl ih =>
      cases hd with
      | mk k' v' =>
          by_cases h : k' = k
          · simp [dictSet, dictGet, h]
          · have h2 : ¬ k = k' := fun hh => h hh.symm
            simp [dictSet, dictGet, h, h2, ih]

/-- Replacing the queue and reading it back is the identity. -/
theorem inputSignals_withSignals (s : NullObj) (l : List SignalObj) :
    inputSignals (withSignals s l) = l := by
  cases s <;> rfl

/-- Replacing the state and reading it back is the identity. -/
theorem stateOf_withState (s : NullObj) (st : Dict PyVal) :
    stateOf (withState s st) = st := by
  cases s <;> rfl

/-- C1: constructing a signal with a wrong-typed field does NOT fail — the
`FieldsMismatchError` raised in `Signal.__init__` is caught by the
surrounding `try` in the same method, `"Fields mismatch!"` is printed, and a
`Signal` object is returned anyway (here with an empty `contained`); only
the claim's second half holds: with no supplied values every field takes its
declared default. -/
theorem signal_init_swallows_fields_mismatch :
    (signalInit SignalKind.Signal [("src", PyVal.int 1)]).printedMismatch = true ∧
    (signalInit SignalKind.Signal [("src", PyVal.int 1)]).sig =
      { cls := SignalKind.Signal, contained := [], attrs := [] } ∧
    (signalInit SignalKind.Signal []).printedMismatch = false ∧
    (signalInit SignalKind.Signal []).sig.contained =
      [("src", PyVal.none), ("dst", PyVal.none)] := by
  decide

/-- C2: `push_signal` appends every signal that is not a `SigTerminateNow`
at the tail of the input queue and inserts every `SigTerminateNow` at the
queue head; in particular pushing S1, then preemptive P, then S2 onto an
empty queue leaves the queue in order P, S1, S2. -/
theorem push_signal_order (s q0 : NullObj) (sig s1 p s2 : SignalObj)
    (h1 : isInstance s1 SignalKind.SigTerminateNow = false)
    (h2 : isInstance s2 SignalKind.SigTerminateNow = false)
    (hp : isInstance p SignalKind.SigTerminateNow = true)
    (hq : inputSignals q0 = []) :
    (isInstance sig SignalKind.SigTerminateNow = false →
        inputSignals (nullPushSignal s sig) = inputSignals s ++ [sig]) ∧
    (isInstance sig SignalKind.SigTerminateNow = true →
        inputSignals (nullPushSignal s sig) = sig :: inputSignals s) ∧
    inputSignals (nullPushSignal (nullPushSignal (nullPushSignal q0 s1) p) s2)
      = [p, s1, s2] := by
  refine ⟨?_, ?_, ?_⟩
  · intro h; simp [nullPushSignal, h, inputSignals_withSignals]
  · intro h; simp [nullPushSignal, h, inputSignals_withSignals]
  · simp [nullPushSignal, h1, h2, hp, inputSignals_withSignals, hq]

/-- Witness for `push_signal_order` at concrete signals: two plain signals
and a `SigTerminateNow`, pushed onto a freshly constructed substance. -/
theorem push_signal_order_witness :
    (isInstance sampleSignalA SignalKind.SigTerminateNow = false ∧
     isInstance sampleSignalB SignalKind.SigTerminateNow = false ∧
     isInstance samplePreemptive SignalKind.SigTerminateNow = true ∧
     inputSignals sampleNull = []) ∧
    inputSignals (nullPushSignal (nullPushSignal
        (nullPushSignal sampleNull sampleSignalA) samplePreemptive) sampleSignalB)
      = [samplePreemptive, sampleSignalA, sampleSignalB] :=
  ⟨⟨by decide, by decide, by decide, by decide⟩,
   (push_signal_order sampleNull sampleNull sampleSignalA sampleSignalA
      samplePreemptive sampleSignalB (by decide) (by decide) (by decide)
      (by decide)).2.2⟩

/-- C10: every `SigMirror` construction raises `TypeError`, because
`SigMirror.__init__` passes `src` and `dst` positionally to
`Signal.__init__`, which accepts only keyword arguments; no `SigMirror`
value is ever produced. -/
theorem sigmirror_init_always_type_error (src dst key val : PyVal) :
    sigMirrorNew src dst key val = Except.error PyErr.typeError := rfl

/-- C3: for every signal kind and field name, `inspect_fields` yields exactly
the merged schema the spec describes: the union of the kind's own declared
fields and all ancestor kinds' declared fields, with the most specific (most
derived) declaration's type, default and description taking precedence. -/
theorem inspect_fields_merged_schema (c : SignalKind) (name : String) :
    dictGet (inspectFields c) name = specMergedSchema c name := by
  by_cases h1 : name = "src"
  · subst h1; cases c <;> decide
  · by_cases h2 : name = "dst"
    · subst h2; cases c <;> decide
    · cases c <;>
        simp [inspectFields, inspectFieldsGo, ancestors, fieldsAttr,
          declaredFields, specMergedSchema, dictUpdate, dictSet, dictGet,
          List.findSome?, h1, h2]

/-- C4: `emit` on a substance whose `_domain` is a `Null` forwards the signal
unchanged to the domain's `emit` (so the signal bubbles up and lands in the
queue at the root of the domain chain); `emit` on a substance without a
`Null` domain enqueues the signal into the substance's own input queue via
`push_signal`. -/
theorem emit_routing :
    (∀ d sigs st sig, nullEmit (NullObj.nullDomain d sigs st) sig =
        NullObj.nullDomain (nullEmit d sig) sigs st) ∧
    (∀ sigs st sig, nullEmit (NullObj.noDomain sigs st) sig =
        nullPushSignal (NullObj.noDomain sigs st) sig) ∧
    (∀ v sigs st sig, nullEmit (NullObj.otherDomain v sigs st) sig =
        nullPushSignal (NullObj.otherDomain v sigs st) sig) ∧
    (∀ s sig, rootQueue (nullEmit s sig) =
        if isInstance sig SignalKind.SigTerminateNow then sig :: rootQueue s
        else rootQueue s ++ [sig]) := by
  refine ⟨fun d sigs st sig => rfl, fun sigs st sig => rfl,
    fun v sigs st sig => rfl, ?_⟩
  intro s sig
  induction s with
  | noDomain sigs st =>
      by_cases h : isInstance sig SignalKind.SigTerminateNow <;>
        simp [nullEmit, nullPushSignal, rootQueue, withSignals, inputSignals, h]
  | nullDomain d sigs st ih =>
      simp [nullEmit, rootQueue, ih]
  | otherDomain v sigs st =>
      by_cases h : isInstance sig SignalKind.SigTerminateNow <;>
        simp [nullEmit, nullPushSignal, rootQueue, withSignals, inputSignals, h]

/-- C5: on a mirroring substance with a `Null` domain and `id='a'`, a
handler-initiated `set('k', 'v')` writes the state entry but then raises
`TypeError` while constructing the `SigMirror` (whose initializer passes
`src`, `dst` positionally to the keyword-only `Signal.__init__`): no
`SigMirror` ever reaches the domain's queue, against the claimed
exactly-one-`SigMirror` emission. -/
theorem mirroring_set_aborts_with_type_error :
    (nullSet sampleMirroring (some true) "k" (PyVal.str "v")).2 =
      some PyErr.typeError ∧
    dictGet (stateOf (nullSet sampleMirroring (some true) "k" (PyVal.str "v")).1)
      "k" = some (PyVal.str "v") ∧
    domainSignals (nullSet sampleMirroring (some true) "k" (PyVal.str "v")).1
      = [] := by
  decide

/-- C6: `get(key, default)` returns the value stored under the key when it is
present in the substance's state and the caller's default when it is absent;
being a total function of the state, it never raises. -/
theorem get_returns_stored_or_default (s : NullObj) (key : String)
    (d v : PyVal) :
    (dictGet (stateOf s) key = some v → nullGet s key d = v) ∧
    (dictGet (stateOf s) key = Option.none → nullGet s key d = d) := by
  constructor <;> intro h <;> simp [nullGet, h]

/-- Witness for `get_returns_stored_or_default`: on a fresh substance, a
present key (`id`, stored as `''`) and an absent key with default `7`. -/
theorem get_returns_stored_or_default_witness :
    (dictGet (stateOf sampleNull) "id" = some (PyVal.str "") ∧
     nullGet sampleNull "id" (PyVal.int 7) = PyVal.str "") ∧
    (dictGet (stateOf sampleNull) "absent" = Option.none ∧
     nullGet sampleNull "absent" (PyVal.int 7) = PyVal.int 7) :=
  ⟨⟨by decide, (get_returns_stored_or_default sampleNull "id" (PyVal.int 7)
      (PyVal.str "")).1 (by decide)⟩,
   ⟨by decide, (get_returns_stored_or_default sampleNull "absent" (PyVal.int 7)
      PyVal.none).2 (by decide)⟩⟩

/-- C7 (amended): whatever keyword arguments `Null.__init__` receives, the
freshly constructed substance's `termination` state entry is the boolean
`False` — the code's encoding of "not terminated" — not one of the four
protocol values `running|requested|confirmed|terminated`, and nothing
restricts later `set` writes to that four-value set. -/
theorem termination_initialized_false (kw : NullKwargs) :
    dictGet (stateOf (nullInit kw)) "termination" = some (PyVal.bool false) := by
  rcases kw with ⟨dom, mir, idv, bp, ap, iw⟩
  rcases dom with _ | ⟨d | v⟩ <;>
    simp [nullInit, stateOf, dictGet_dictSet_self]

/-- C7 (counterexample to the claim as stated): the `termination` entry of a
freshly constructed substance is `False`, which is not a member of the four
protocol values. -/
theorem termination_not_protocol_value_counterexample :
    dictGet (stateOf (nullInit emptyNullKwargs)) "termination" =
      some (PyVal.bool false) ∧
    PyVal.bool false ∉ terminationProtocolValues := by
  decide

/-- C8 (amended): signals are mutable after construction — the public
`set_src`/`set_dst` property setters overwrite the stored field, and the
getters return the last written value. -/
theorem signal_setters_mutate (s : SignalObj) (v : PyVal) :
    signalGetSrc (signalSetSrc s v) = Except.ok v ∧
    signalGetDst (signalSetDst s v) = Except.ok v := by
  constructor <;>
    simp [signalGetSrc, signalSetSrc, signalGetDst, signalSetDst,
      dictGet_dictSet_self]

/-- C8 (counterexample to the claim as stated): a `Signal()` is constructed
with `src = None`; the public `set_src` then changes the value read back to
`'x'`, so reading the field no longer returns the value fixed at
construction. -/
theorem signal_mutable_counterexample :
    signalGetSrc (signalInit SignalKind.Signal []).sig = Except.ok PyVal.none ∧
    signalGetSrc (signalSetSrc (signalInit SignalKind.Signal []).sig
      (PyVal.str "x")) = Except.ok (PyVal.str "x") ∧
    PyVal.str "x" ≠ PyVal.none :=
  ⟨rfl, rfl, by decide⟩

/-- C9 (amended): `exec` installs no reentrancy guard — it delegates to the
kind-specific handler unchanged, so a handler that recursively invokes the
dispatch entry point on its own substance runs as an ordinary nested call:
both the outer and the nested handler's state writes land and no error of
any kind is raised. -/
theorem exec_no_reentrancy_guard (s : NullObj) (sig : SignalObj) :
    nullExec reentrantHandler s sig =
      (markState (markState s "outer") "inner", Option.none) := rfl

/-- C9 (counterexample to the claim as stated): dispatching to a handler
that reentrantly calls `exec` on the same substance is silently tolerated —
the nested dispatch runs (both markers are written) and no error is raised,
where the claim demands rejection with a fatal protocol violation. -/
theorem reentrant_exec_tolerated_counterexample :
    (nullExec reentrantHandler sampleNull sampleSignalA).2 = Option.none ∧
    dictGet (stateOf (nullExec reentrantHandler sampleNull sampleSignalA).1)
      "inner" = some (PyVal.bool true) ∧
    dictGet (stateOf (nullExec reentrantHandler sampleNull sampleSignalA).1)
      "outer" = some (PyVal.bool true) := by
  decide
